import Mathlib

/-!
Verification development for the two CLI utilities in this repository:
the GitHub user-activity viewer (`github_user_activity.py`) and the
task tracker (`task_cli.py`).

The Python source is shallowly embedded: pure functions become Lean
functions, JSON values become the inductive type `JVal`, Python
exceptions that can escape a function are made explicit with
`Except PyExn`, the wall clock and ISO-8601 timestamp parsing are
passed in as parameters, and file / network effects are modelled by
explicit state values describing the outcome of each external call.
-/

/-! ## Python string primitives used by the source -/

/-- One step model of Python `str.replace(pat, rep)` over character lists:
replaces every non-overlapping occurrence of `pat`, scanning left to right.
The `Nat` argument is recursion fuel; callers pass the length of the input,
which always suffices because each step consumes at least one character. -/
def pyReplaceAux (pat rep : List Char) : Nat → List Char → List Char
  | _, [] => []
  | 0, l => l
  | fuel + 1, c :: rest =>
    if pat ≠ [] ∧ (c :: rest).take pat.length = pat then
      rep ++ pyReplaceAux pat rep fuel ((c :: rest).drop pat.length)
    else
      c :: pyReplaceAux pat rep fuel rest

/-- Python `s.replace(pat, rep)` (all occurrences, left to right). -/
def pyReplace (s pat rep : String) : String :=
  ⟨pyReplaceAux pat.data rep.data s.data.length s.data⟩

/-- Python `s.startswith(pat)`. -/
def pyStartsWith (s pat : String) : Bool :=
  s.data.take pat.data.length == pat.data

/-- Python `s.removeprefix(pat)` (used by the DeleteEvent handler). -/
def pyRemovePre (s pat : String) : String :=
  if pyStartsWith s pat then ⟨s.data.drop pat.data.length⟩ else s

/-! ## JSON values and Python-semantics helpers -/

/-- A JSON value as produced by `json.load(s)`; numbers are modelled as
integers (the program only ever writes integral numbers). -/
inductive JVal where
  | jnull
  | jbool (b : Bool)
  | jnum (n : Int)
  | jstr (s : String)
  | jarr (elems : List JVal)
  | jobj (fields : List (String × JVal))

/-- A Python exception escaping a modelled function. -/
inductive PyExn where
  | httpErr (code : Nat)
  | urlErr
  | jsonErr
  | typeErr
  | keyErr
  | attrErr
  deriving DecidableEq

/-- Python treats `bool` as an `int` (`True == 1`, `False == 0`). -/
def pyBoolInt (b : Bool) : Int := if b then 1 else 0

/-- Python truthiness of a JSON value (`if x:`). -/
def pyTruthy : JVal → Bool
  | .jnull => false
  | .jbool b => b
  | .jnum n => n != 0
  | .jstr s => s != ""
  | .jarr l => !l.isEmpty
  | .jobj l => !l.isEmpty

/-- Python `dict.get(k)` on the field list of a parsed JSON object.  `json.loads`
keeps the last occurrence of a duplicated key, so lookup prefers the
rightmost binding. -/
def jLookup : List (String × JVal) → String → Option JVal
  | [], _ => none
  | (k', v) :: rest, k =>
    match jLookup rest k with
    | some v' => some v'
    | none => if k' = k then some v else none

/-- Python `d[k] = v` on a dict: overwrites the binding in place when the
key is present (dicts built by `json.loads` never repeat a key), otherwise
appends the new binding at the end. -/
def jSetFields (fields : List (String × JVal)) (k : String) (v : JVal) : List (String × JVal) :=
  if (jLookup fields k).isSome then
    fields.map (fun kv => if kv.1 = k then (k, v) else kv)
  else fields ++ [(k, v)]

mutual
/-- Python `==` between two JSON values: never raises, mixed numeric and
boolean operands compare by value, dicts compare key-by-key ignoring
order, everything else of different shapes is simply unequal. -/
def pyEqJV : JVal → JVal → Bool
  | .jnull, .jnull => true
  | .jbool a, .jbool b => a == b
  | .jbool a, .jnum n => pyBoolInt a == n
  | .jnum n, .jbool b => n == pyBoolInt b
  | .jnum a, .jnum b => a == b
  | .jstr a, .jstr b => a == b
  | .jarr xs, .jarr ys => pyEqList xs ys
  | .jobj xs, .jobj ys => pyEqObjGo xs ys && (xs.length == ys.length)
  | _, _ => false

/-- Elementwise Python `==` on lists (lengths must agree). -/
def pyEqList : List JVal → List JVal → Bool
  | [], [] => true
  | x :: xs, y :: ys => pyEqJV x y && pyEqList xs ys
  | _, _ => false

/-- Every binding of the first dict is present (by key) and equal in the
second; combined with a length check this is Python dict equality for
duplicate-free field lists. -/
def pyEqObjGo : List (String × JVal) → List (String × JVal) → Bool
  | [], _ => true
  | (k, v) :: rest, ys =>
    (match jLookup ys k with
     | some v2 => pyEqJV v v2
     | none => false) && pyEqObjGo rest ys
end

mutual
/-- Python `>` between two JSON values: numbers and booleans compare by
value, strings lexicographically, lists lexicographically via `==` and
recursive `>`; any other combination raises `TypeError`. -/
def pyGtJ : JVal → JVal → Except PyExn Bool
  | .jnum x, .jnum y => .ok (decide (y < x))
  | .jnum x, .jbool b => .ok (decide (pyBoolInt b < x))
  | .jbool a, .jnum y => .ok (decide (y < pyBoolInt a))
  | .jbool a, .jbool b => .ok (decide (pyBoolInt b < pyBoolInt a))
  | .jstr x, .jstr y => .ok (decide (y < x))
  | .jarr xs, .jarr ys => pyGtList xs ys
  | _, _ => .error .typeErr

/-- Python `>` on lists: skip equal heads, decide at the first differing
pair, fall back to length comparison. -/
def pyGtList : List JVal → List JVal → Except PyExn Bool
  | [], [] => .ok false
  | [], _ :: _ => .ok false
  | _ :: _, [] => .ok true
  | x :: xs, y :: ys =>
    if pyEqJV x y then pyGtList xs ys else pyGtJ x y
end

/-! ## `github_user_activity.py`: the event formatter

An event record as described by the data model: every field the seven
handlers read, each optional because the JSON payload is untrusted and
`dict.get` defaulting is applied at every access in the source. -/

namespace GhActivity

/-- A user-like object with a `login` field (`actor`, `issue.assignee`,
`pull_request.user`). -/
structure UserInfo where
  login : Option String
  deriving DecidableEq

/-- One element of `payload.issue.labels`. -/
structure IssueLabel where
  name : Option String
  deriving DecidableEq

/-- Field `payload.issue`; an absent `issue` object behaves like one with every
field missing.  `assignee = none` covers both an absent and a `null`
assignee (both are falsy at the `if assignee_data` check). -/
structure IssueInfo where
  number : Option Int
  assignee : Option UserInfo
  labels : List IssueLabel
  deriving DecidableEq

/-- Field `payload.pull_request`. -/
structure PRInfo where
  title : Option String
  user : UserInfo
  deriving DecidableEq

/-- Field `event.payload`; an absent payload behaves like one with every field
missing.  `forkee_full_name` is `payload.forkee.full_name`. -/
structure Payload where
  ref : Option String
  ref_type : Option String
  forkee_full_name : Option String
  action : Option String
  issue : IssueInfo
  number : Option Int
  pull_request : PRInfo
  deriving DecidableEq

/-- An event record: the fields of the GitHub event JSON that the
formatter reads, `none` meaning the field is absent. -/
structure EventRecord where
  type : Option String
  repo_name : Option String
  payload : Payload
  actor : UserInfo
  deriving DecidableEq

/-- Model of `GitHubEventHandler._handle_create_event`. -/
def handle_create_event (event : EventRecord) : String :=
  let repo_name := event.repo_name.getD "unknown_repository"
  let ref := event.payload.ref.getD "unknown_ref"
  let ref_type := event.payload.ref_type.getD "unknown_ref_type"
  if ref_type = "repository" then
    "Created a new repository '" ++ repo_name ++ "'"
  else if ref_type = "tag" then
    "Created a new tag '" ++ ref ++ "' in '" ++ repo_name ++ "'"
  else if ref_type = "branch" then
    "Created a new branch '" ++ ref ++ "' in '" ++ repo_name ++ "'"
  else
    "Created a new '" ++ ref ++ "' in '" ++ repo_name ++ "'"

/-- Model of `GitHubEventHandler._handle_push_event`. -/
def handle_push_event (event : EventRecord) : String :=
  let repo_name := event.repo_name.getD "unknown_repository"
  let ref := event.payload.ref.getD "unknown_ref"
  if pyStartsWith ref "refs/heads/" then
    "Pushed commit(s) to branch '" ++ pyReplace ref "refs/heads/" "" ++ "' of '" ++ repo_name ++ "'"
  else if pyStartsWith ref "refs/tags/" then
    "Pushed commit(s) to tag '" ++ pyReplace ref "refs/tags/" "" ++ "' of '" ++ repo_name ++ "'"
  else
    "Pushed commit(s) to '" ++ ref ++ "' of '" ++ repo_name ++ "'"

/-- Model of `GitHubEventHandler._handle_delete_event`. -/
def handle_delete_event (event : EventRecord) : String :=
  let repo_name := event.repo_name.getD "unknown_repository"
  let ref := pyRemovePre (pyRemovePre (event.payload.ref.getD "unknown_ref") "refs/heads/") "refs/tags/"
  let ref_type := event.payload.ref_type.getD "unknown_ref_type"
  "Deleted " ++ ref_type ++ " '" ++ ref ++ "' from '" ++ repo_name ++ "'"

/-- Model of `GitHubEventHandler._handle_fork_event`; `if forkee:` is Python
truthiness, so an empty `full_name` also falls back. -/
def handle_fork_event (event : EventRecord) : String :=
  let repo_name := event.repo_name.getD "unknown_repository"
  match event.payload.forkee_full_name with
  | some forkee =>
    if forkee ≠ "" then "Forked '" ++ repo_name ++ "' to '" ++ forkee ++ "'"
    else "Forked the repository '" ++ repo_name ++ "'"
  | none => "Forked the repository '" ++ repo_name ++ "'"

/-- Model of `GitHubEventHandler._handle_watch_event`. -/
def handle_watch_event (event : EventRecord) : String :=
  let repo_name := event.repo_name.getD "unknown_repository"
  "Starred the repository '" ++ repo_name ++ "'"

/-- Rendering of `payload.issue.number` inside an f-string: an absent
number prints as the placeholder. -/
def issueNumberText (n : Option Int) : String :=
  match n with
  | some n => toString n
  | none => "unknown_issue"

/-- Model of `GitHubEventHandler._handle_issues_event`. -/
def handle_issues_event (event : EventRecord) : String :=
  let repo_name := event.repo_name.getD "unknown_repository"
  let action := event.payload.action.getD "performed an action"
  let issue_number := issueNumberText event.payload.issue.number
  let user := event.actor.login.getD "unknown_user"
  let assignee :=
    match event.payload.issue.assignee with
    | some a => a.login.getD "unknown_assignee"
    | none => "unknown_assignee"
  let label :=
    match event.payload.issue.labels with
    | [] => "unknown_label"
    | l :: _ => l.name.getD "unknown_label"
  if action ∈ [ "opened", "edited", "deleted", "closed", "reopened", "transferred",
      "pinned", "unpinned", "locked", "unlocked"] then
    "Issue #" ++ issue_number ++ " was " ++ action ++ " by " ++ user ++ " in " ++ repo_name
  else if action = "assigned" then
    "Issue #" ++ issue_number ++ " was " ++ action ++ " to " ++ assignee ++ " by " ++ user ++ " in " ++ repo_name
  else if action = "unassigned" then
    "Issue #" ++ issue_number ++ " was " ++ action ++ " from " ++ assignee ++ " by " ++ user ++ " in " ++ repo_name
  else if action = "labeled" ∨ action = "unlabeled" then
    "Issue #" ++ issue_number ++ " was " ++ action ++ " " ++ label ++ " by " ++ user ++ " in " ++ repo_name
  else
    "Performed an action " ++ action ++ " on issue " ++ issue_number ++ " of repo " ++ repo_name

/-- Rendering of `payload.number` for pull requests. -/
def prNumberText (n : Option Int) : String :=
  match n with
  | some n => toString n
  | none => "unknown_pr"

/-- Model of `GitHubEventHandler._handle_pull_request_event`. -/
def handle_pull_request_event (event : EventRecord) : String :=
  let repo_name := event.repo_name.getD "unknown_repository"
  let action := event.payload.action.getD "performed an action"
  let pr_number := prNumberText event.payload.number
  let title := event.payload.pull_request.title.getD "unknown_title"
  let actor := event.payload.pull_request.user.login.getD "unknown_user"
  "PR #" ++ pr_number ++ " '" ++ title ++ "' was " ++ action ++ " in " ++ repo_name ++ " by " ++ actor

/-- The keys of `GitHubEventHandler.HANDLERS`. -/
def supportedEventTypes : List String :=
  [ "CreateEvent", "PushEvent", "DeleteEvent", "ForkEvent", "WatchEvent",
    "IssuesEvent", "PullRequestEvent"]

/-- Model of `GitHubEventHandler.handle_output`: dictionary dispatch on the event
type.  A missing `type` gives `event.get("type") = None`, which is not a
`HANDLERS` key, so the f-string prints the placeholder `None`.  Every
`HANDLERS` value names a method that exists, so the
`Handler not implemented` guard in the source is unreachable. -/
def handle_output (event : EventRecord) : String :=
  match event.type with
  | none => "Unhandled event type: None"
  | some t =>
    if t = "CreateEvent" then handle_create_event event
    else if t = "PushEvent" then handle_push_event event
    else if t = "DeleteEvent" then handle_delete_event event
    else if t = "ForkEvent" then handle_fork_event event
    else if t = "WatchEvent" then handle_watch_event event
    else if t = "IssuesEvent" then handle_issues_event event
    else if t = "PullRequestEvent" then handle_pull_request_event event
    else "Unhandled event type: " ++ t

/-- State-passing form of `handle_output`: the dispatched handler receives
the event object and the pair returns the event that the caller sees
afterwards.  No statement in `GitHubEventHandler` assigns to any field of
`event`, so every branch hands the record back unchanged. -/
def handle_outputSt (event : EventRecord) : String × EventRecord :=
  match event.type with
  | none => ( "Unhandled event type: None", event)
  | some t =>
    if t = "CreateEvent" then (handle_create_event event, event)
    else if t = "PushEvent" then (handle_push_event event, event)
    else if t = "DeleteEvent" then (handle_delete_event event, event)
    else if t = "ForkEvent" then (handle_fork_event event, event)
    else if t = "WatchEvent" then (handle_watch_event event, event)
    else if t = "IssuesEvent" then (handle_issues_event event, event)
    else if t = "PullRequestEvent" then (handle_pull_request_event event, event)
    else ( "Unhandled event type: " ++ t, event)

end GhActivity

/-! ## `github_user_activity.py`: the activity fetcher

The network is modelled by the outcome of each `urllib` request. -/

namespace GhActivity

/-- Outcome of one `urllib.request.urlopen` call plus `json.loads` on the
body: success with the decoded event list, an `HTTPError` with a status
code, a `URLError` (DNS, refused connection, timeout), or a
`json.JSONDecodeError` on a malformed body. -/
inductive ReqResult where
  | success (events : List JVal)
  | httpError (code : Nat)
  | urlError
  | jsonError

/-- Model of `GitHubAPIClient._make_request`: perform the request and decode the
body, propagating any of the three failure modes as an exception. -/
def make_request : ReqResult → Except PyExn (List JVal)
  | .success evs => .ok evs
  | .httpError c => .error (.httpErr c)
  | .urlError => .error .urlErr
  | .jsonError => .error .jsonErr

/-- Model of `GitHubAPIClient._retry_request_with_token`.  `token` is the result of
`_get_github_token` (`none` when the prompt was cancelled or unreadable);
a missing or empty token returns `[]` without a request.  The `try` block
catches only `HTTPError`, so a `URLError` or `JSONDecodeError` raised by
the authenticated request propagates to the caller. -/
def retry_request_with_token (token : Option String) (retryOutcome : ReqResult) :
    Except PyExn (Option (List JVal)) :=
  match token with
  | none => .ok (some [])
  | some t =>
    if t = "" then .ok (some [])
    else
      match make_request retryOutcome with
      | .ok evs => .ok (some evs)
      | .error (.httpErr _) => .ok none
      | .error e => .error e

/-- Model of `GitHubAPIClient.fetch_activity`: one unauthenticated request; on 401
or 403 a single authenticated retry; 404 and every other first-request
failure are caught and reported as `none`.  The retry happens inside the
`except HTTPError` handler, so exceptions it raises are not caught by the
sibling `except` clauses. -/
def fetch_activity (firstOutcome : ReqResult) (token : Option String)
    (retryOutcome : ReqResult) : Except PyExn (Option (List JVal)) :=
  match make_request firstOutcome with
  | .ok evs => .ok (some evs)
  | .error (.httpErr c) =>
    if c = 401 then retry_request_with_token token retryOutcome
    else if c = 403 then retry_request_with_token token retryOutcome
    else if c = 404 then .ok none
    else .ok none
  | .error .urlErr => .ok none
  | .error _ => .ok none

/-! ## `github_user_activity.py`: the cache gate -/

/-- The state of a per-user cache file as seen by
`EventsCacheHandler.check_cache_usability`: missing, unreadable or
syntactically invalid (`OSError` / `json.JSONDecodeError`, both caught),
or readable with a parsed JSON value. -/
inductive CacheFileState where
  | missingFile
  | unreadable
  | content (v : JVal)

/-- Model of `EventsCacheHandler._is_cache_expired`.  `parse` stands for
`datetime.fromisoformat` (returning the timestamp in seconds, `none` for
`ValueError`) and `now` for `datetime.now(timezone.utc)`; the source
applies `.replace("Z", "+00:00")` to the string first.  A non-string
timestamp raises `AttributeError` inside the `try`, which is caught, so
it counts as expired.  The final comparison sits outside the `try`: a ttl
that is neither a number nor a bool raises `TypeError` to the caller. -/
def is_cache_expired (parse : String → Option Int) (now : Int)
    (cached_at ttl : JVal) : Except PyExn Bool :=
  match cached_at with
  | .jstr s =>
    match parse (pyReplace s "Z" "+00:00") with
    | none => .ok true
    | some t =>
      match ttl with
      | .jnum m => .ok (decide (now - t > m))
      | .jbool b => .ok (decide (now - t > pyBoolInt b))
      | _ => .error .typeErr
  | _ => .ok true

/-- Model of `EventsCacheHandler.check_cache_usability`.  Reads the cache file;
missing or unreadable files give `none`.  `cached_data.get` on a parsed
value that is not a JSON object raises `AttributeError` (uncaught).
Defaults: `ttl` to 900 (`CACHE_TTL_SECONDS`), `events` to `[]`,
`timestamp` to `None`.  A non-list `events` field gives `none`; a falsy
timestamp gives `none`; otherwise freshness decides. -/
def check_cache_usability (parse : String → Option Int) (now : Int) :
    CacheFileState → Except PyExn (Option (List JVal))
  | .missingFile => .ok none
  | .unreadable => .ok none
  | .content v =>
    match v with
    | .jobj fields =>
      let timestamp := (jLookup fields "timestamp").getD .jnull
      let ttl := (jLookup fields "ttl").getD (.jnum 900)
      let events := (jLookup fields "events").getD (.jarr [])
      match events with
      | .jarr evs =>
        if pyTruthy timestamp then
          match is_cache_expired parse now timestamp ttl with
          | .ok expired => if expired then .ok none else .ok (some evs)
          | .error e => .error e
        else .ok none
      | _ => .ok none
    | _ => .error .attrErr

end GhActivity

/-! ## `task_cli.py`: the task store (typed model)

A task record as built by `TaskManager.add_item` and consumed by the
other operations; `now` stands for `_fetch_current_time()`. -/

namespace TaskCli

/-- A task record with the five fields the program writes and reads. -/
structure TaskRec where
  id : Int
  description : String
  status : String
  createdAt : String
  updatedAt : String
  deriving DecidableEq

/-- Model of `TaskManager.mark_status`: linear scan, first matching id gets the new
status and an `updatedAt` stamp; returns whether a task was found. -/
def mark_status (now : String) (id : Int) (status : String) :
    List TaskRec → Bool × List TaskRec
  | [] => (false, [])
  | t :: rest =>
    if t.id = id then (true, { t with status := status, updatedAt := now } :: rest)
    else
      let r := mark_status now id status rest
      (r.1, t :: r.2)

/-- Model of `TaskManager.update_item`: linear scan, first matching id gets the new
description and an `updatedAt` stamp; returns whether a task was found. -/
def update_item (now : String) (id : Int) (description : String) :
    List TaskRec → Bool × List TaskRec
  | [] => (false, [])
  | t :: rest =>
    if t.id = id then (true, { t with description := description, updatedAt := now } :: rest)
    else
      let r := update_item now id description rest
      (r.1, t :: r.2)

/-- Model of `TaskManager.delete_item`: remove the first task with the given id. -/
def delete_item (id : Int) : List TaskRec → Bool × List TaskRec
  | [] => (false, [])
  | t :: rest =>
    if t.id = id then (true, rest)
    else
      let r := delete_item id rest
      (r.1, t :: r.2)

/-- Model of `max(item["id"] for item in tasks)` for a nonempty list: Python's
`max` keeps a running maximum starting from the first element. -/
def maxIdAux (acc : Int) : List TaskRec → Int
  | [] => acc
  | t :: rest => maxIdAux (max acc t.id) rest

/-- The id `TaskManager.add_item` assigns: `(max existing id) + 1` over
the tasks present, or `1` when the list is empty. -/
def newTaskId : List TaskRec → Int
  | [] => 1
  | t :: rest => maxIdAux t.id rest + 1

/-- Model of `TaskManager.add_item` on a well-typed task list (the `isinstance`
guard passes): append a fresh record with status `todo` and both
timestamps set to `now`; always returns `True`. -/
def add_item (now : String) (description : String) (tasks : List TaskRec) :
    Bool × List TaskRec :=
  let t : TaskRec :=
    { id := newTaskId tasks, description := description, status := "todo",
      createdAt := now, updatedAt := now }
  (true, tasks ++ [t])

/-! ### Persistence (`JSONHandler`)

The task file is modelled by its parse status; reading and writing move
between file states and the JSON value stored inside. -/

/-- The state of `task_list.json`: missing, present but not valid JSON,
or present with a parsed JSON value. -/
inductive TaskFileState where
  | missingFile
  | malformed
  | content (v : JVal)

/-- Model of `JSONHandler.write_tasks_to_json`: serialize the whole sequence,
replacing the file. -/
def write_tasks_to_json (tasks : JVal) : TaskFileState :=
  .content tasks

/-- Model of `JSONHandler.read_tasks_from_json`: a missing file is initialized to
an empty list; a `JSONDecodeError` is caught, a warning printed, and `[]`
returned (the file itself is left as it was); a parsed `null` also gives
`[]`; any other parsed value is returned as is, with no shape check. -/
def read_tasks_from_json : TaskFileState → JVal × TaskFileState
  | .missingFile => (.jarr [], .content (.jarr []))
  | .malformed => (.jarr [], .malformed)
  | .content v =>
    match v with
    | .jnull => (.jarr [], .content .jnull)
    | v => (v, .content v)

/-- The JSON object `add_item` appends and `json.dump` writes for one
task (field order as in the source). -/
def taskToJson (t : TaskRec) : JVal :=
  .jobj [ ("id", .jnum t.id), ("description", .jstr t.description),
    ("status", .jstr t.status), ("createdAt", .jstr t.createdAt),
    ("updatedAt", .jstr t.updatedAt) ]

/-- A task sequence as the JSON array `json.dump` writes. -/
def tasksToJson (tasks : List TaskRec) : JVal :=
  .jarr (tasks.map taskToJson)

end TaskCli

namespace TaskCli

/-! ### Raw (JSON-level) task operations

`read_tasks_from_json` performs no shape validation, so `TaskManager` can
be handed any JSON value.  The following mirror the same methods over raw
`JVal` data and make the Python exceptions explicit.  `item["id"]` raises
`TypeError` when `item` is not a dict and `KeyError` when the key is
missing; `item["id"] == id` with an `int` right operand never raises and
is `False` for any non-numeric left operand. -/

/-- Python `item["id"]` followed by `== id` for an `int` `id`. -/
def pyIdMatches (v : JVal) (id : Int) : Bool :=
  match v with
  | .jnum n => n == id
  | .jbool b => pyBoolInt b == id
  | _ => false

/-- The `mark_status` body over one list of raw items. -/
def jMarkGo (now : String) (id : Int) (status : String) :
    List JVal → Except PyExn (Bool × List JVal)
  | [] => .ok (false, [])
  | item :: rest =>
    match item with
    | .jobj fields =>
      match jLookup fields "id" with
      | none => .error .keyErr
      | some v =>
        if pyIdMatches v id then
          .ok (true, .jobj (jSetFields (jSetFields fields "status" (.jstr status))
            "updatedAt" (.jstr now)) :: rest)
        else
          match jMarkGo now id status rest with
          | .ok (b, rest') => .ok (b, item :: rest')
          | .error e => .error e
    | _ => .error .typeErr

/-- Model of `TaskManager.mark_status` over a raw tasks value.  Iterating a dict
yields its keys and iterating a string yields its characters — both are
strings, so the first `item["id"]` raises `TypeError`; numbers, booleans
and `None` are not iterable at all. -/
def jMark_status (now : String) (id : Int) (status : String) :
    JVal → Except PyExn (Bool × JVal)
  | .jarr items =>
    match jMarkGo now id status items with
    | .ok (b, items') => .ok (b, .jarr items')
    | .error e => .error e
  | .jobj [] => .ok (false, .jobj [])
  | .jstr "" => .ok (false, .jstr "")
  | _ => .error .typeErr

/-- The `update_item` body over one list of raw items. -/
def jUpdateGo (now : String) (id : Int) (description : String) :
    List JVal → Except PyExn (Bool × List JVal)
  | [] => .ok (false, [])
  | item :: rest =>
    match item with
    | .jobj fields =>
      match jLookup fields "id" with
      | none => .error .keyErr
      | some v =>
        if pyIdMatches v id then
          .ok (true, .jobj (jSetFields (jSetFields fields "description" (.jstr description))
            "updatedAt" (.jstr now)) :: rest)
        else
          match jUpdateGo now id description rest with
          | .ok (b, rest') => .ok (b, item :: rest')
          | .error e => .error e
    | _ => .error .typeErr

/-- Model of `TaskManager.update_item` over a raw tasks value. -/
def jUpdate_item (now : String) (id : Int) (description : String) :
    JVal → Except PyExn (Bool × JVal)
  | .jarr items =>
    match jUpdateGo now id description items with
    | .ok (b, items') => .ok (b, .jarr items')
    | .error e => .error e
  | .jobj [] => .ok (false, .jobj [])
  | .jstr "" => .ok (false, .jstr "")
  | _ => .error .typeErr

/-- The `delete_item` body over one list of raw items. -/
def jDeleteGo (id : Int) : List JVal → Except PyExn (Bool × List JVal)
  | [] => .ok (false, [])
  | item :: rest =>
    match item with
    | .jobj fields =>
      match jLookup fields "id" with
      | none => .error .keyErr
      | some v =>
        if pyIdMatches v id then .ok (true, rest)
        else
          match jDeleteGo id rest with
          | .ok (b, rest') => .ok (b, item :: rest')
          | .error e => .error e
    | _ => .error .typeErr

/-- Model of `TaskManager.delete_item` over a raw tasks value. -/
def jDelete_item (id : Int) : JVal → Except PyExn (Bool × JVal)
  | .jarr items =>
    match jDeleteGo id items with
    | .ok (b, items') => .ok (b, .jarr items')
    | .error e => .error e
  | .jobj [] => .ok (false, .jobj [])
  | .jstr "" => .ok (false, .jstr "")
  | _ => .error .typeErr

/-- Python `item["id"]` alone (`KeyError` / `TypeError` made explicit). -/
def jItemId : JVal → Except PyExn JVal
  | .jobj fields =>
    match jLookup fields "id" with
    | none => .error .keyErr
    | some v => .ok v
  | _ => .error .typeErr

/-- The running maximum of `max(item["id"] for item in tasks)`: extract
the next id, compare it with the accumulator via Python `>`, continue.
Extraction and comparison errors surface in iteration order. -/
def jMaxIdsGo (acc : JVal) : List JVal → Except PyExn JVal
  | [] => .ok acc
  | item :: rest =>
    match jItemId item with
    | .error e => .error e
    | .ok v =>
      match pyGtJ v acc with
      | .error e => .error e
      | .ok gt => jMaxIdsGo (if gt then v else acc) rest

/-- Python `x + 1` on the maximum id. -/
def pyPlusOne : JVal → Except PyExn JVal
  | .jnum n => .ok (.jnum (n + 1))
  | .jbool b => .ok (.jnum (pyBoolInt b + 1))
  | _ => .error .typeErr

/-- The JSON object `add_item` appends, given the computed id. -/
def jNewTask (now : String) (description : String) (idv : JVal) : JVal :=
  .jobj [ ("id", idv), ("description", .jstr description),
    ("status", .jstr "todo"), ("createdAt", .jstr now), ("updatedAt", .jstr now) ]

/-- Model of `TaskManager.add_item` over a raw tasks value: the explicit
`isinstance(self.tasks, list)` guard raises `TypeError` for any non-list
value; an empty list assigns id 1; otherwise the id is
`max(item["id"] for item in tasks) + 1`. -/
def jAdd_item (now : String) (description : String) : JVal → Except PyExn JVal
  | .jarr [] => .ok (.jarr [jNewTask now description (.jnum 1)])
  | .jarr (first :: rest) =>
    match jItemId first with
    | .error e => .error e
    | .ok v0 =>
      match jMaxIdsGo v0 rest with
      | .error e => .error e
      | .ok m =>
        match pyPlusOne m with
        | .error e => .error e
        | .ok idv => .ok (.jarr ((first :: rest) ++ [jNewTask now description idv]))
  | _ => .error .typeErr

/-- Model of `TaskManager.print_item`: reads the five fields in order; a missing
field raises `KeyError`, a non-dict item `TypeError`. -/
def jPrintItem : JVal → Except PyExn Unit
  | .jobj fields =>
    match jLookup fields "id" with
    | none => .error .keyErr
    | some _ =>
      match jLookup fields "description" with
      | none => .error .keyErr
      | some _ =>
        match jLookup fields "status" with
        | none => .error .keyErr
        | some _ =>
          match jLookup fields "createdAt" with
          | none => .error .keyErr
          | some _ =>
            match jLookup fields "updatedAt" with
            | none => .error .keyErr
            | some _ => .ok ()
  | _ => .error .typeErr

/-- Python `item["status"] == status` for a string filter. -/
def pyStatusMatches (v : JVal) (status : String) : Bool :=
  match v with
  | .jstr s => s == status
  | _ => false

/-- The `list` command loop without a filter: print every item, reporting
whether any task was seen. -/
def jListAllGo : List JVal → Except PyExn Bool
  | [] => .ok false
  | item :: rest =>
    match jPrintItem item with
    | .error e => .error e
    | .ok _ =>
      match jListAllGo rest with
      | .ok _ => .ok true
      | .error e => .error e

/-- The `list` command loop with a status filter: read `item["status"]`,
print matching items, report whether any matched. -/
def jListFilterGo (status : String) : List JVal → Except PyExn Bool
  | [] => .ok false
  | item :: rest =>
    match item with
    | .jobj fields =>
      match jLookup fields "status" with
      | none => .error .keyErr
      | some v =>
        if pyStatusMatches v status then
          match jPrintItem item with
          | .error e => .error e
          | .ok _ =>
            match jListFilterGo status rest with
            | .ok _ => .ok true
            | .error e => .error e
        else jListFilterGo status rest
    | _ => .error .typeErr

/-- Model of `CommandHandler.handle_list_command` over a raw tasks value: `none`
is the plain `list` command, `some s` is `list s` with a valid status
word.  Returns `found_any_task`. -/
def jList_command (statusFilter : Option String) : JVal → Except PyExn Bool
  | .jarr items =>
    (match statusFilter with
     | none => jListAllGo items
     | some s => jListFilterGo s items)
  | .jobj [] => .ok false
  | .jstr "" => .ok false
  | _ => .error .typeErr

end TaskCli

namespace TaskCli

/-- The lookup result is a JSON number. -/
def isNumVal : Option JVal → Bool
  | some (.jnum _) => true
  | _ => false

/-- The lookup result is a JSON string. -/
def isStrVal : Option JVal → Bool
  | some (.jstr _) => true
  | _ => false

/-- Shape of one stored task as `add_item` writes it: a JSON object with
a numeric `id` and string `description`, `status`, `createdAt` and
`updatedAt` fields. -/
def isWellFormedTask : JVal → Bool
  | .jobj fields =>
    isNumVal (jLookup fields "id") && isStrVal (jLookup fields "description")
      && isStrVal (jLookup fields "status") && isStrVal (jLookup fields "createdAt")
      && isStrVal (jLookup fields "updatedAt")
  | _ => false

end TaskCli

/-! ## Helper lemmas -/

theorem isNumVal_spec (o : Option JVal) (h : TaskCli.isNumVal o = true) :
    ∃ n, o = some (.jnum n) := by
  match o, h with
  | some (.jnum n), _ => exact ⟨n, rfl⟩

theorem isStrVal_spec (o : Option JVal) (h : TaskCli.isStrVal o = true) :
    ∃ s, o = some (.jstr s) := by
  match o, h with
  | some (.jstr s), _ => exact ⟨s, rfl⟩

theorem jLookup_cons_ne (k k' : String) (v : JVal) (rest : List (String × JVal))
    (h : k ≠ k') : jLookup ((k, v) :: rest) k' = jLookup rest k' := by
  simp only [jLookup]
  cases jLookup rest k' <;> simp [h]

theorem jLookup_cons_self (k : String) (v : JVal) (rest : List (String × JVal))
    (h : jLookup rest k = none) : jLookup ((k, v) :: rest) k = some v := by
  simp [jLookup, h]

/-! ## Claim theorems -/

/-- Claim C1, counterexample: `add("x")` on an empty list assigns id 1,
`delete(1)` empties the list again, and the second `add("y")` then takes
the `tasks == []` branch and assigns id 1 — not id 2 as claimed.  The id
1 is reused even though the maximum id ever assigned is 1. -/
theorem C1_counterexample :
    ((TaskCli.add_item "t2" "y" (TaskCli.delete_item 1 (TaskCli.add_item "t1" "x" []).2).2).2.map
        TaskCli.TaskRec.id = [1])
    ∧ ((TaskCli.add_item "t2" "y" (TaskCli.delete_item 1 (TaskCli.add_item "t1" "x" []).2).2).2.map
        TaskCli.TaskRec.id ≠ [2]) := by
  refine ⟨rfl, ?_⟩
  decide

/-- Claim C1 (amended): `add` on an empty list assigns id 1 and appends a
`todo` task stamped with the current time; `add` on a nonempty list
assigns `(max existing id) + 1` over the tasks currently present, so ids
freed by deletions can be reassigned: after `add("x")` (id 1),
`delete(1)` and a second `add("y")`, the new task has id 1 again. -/
theorem C1_amended_id_rule (now now2 d d2 : String) (tasks : List TaskCli.TaskRec) :
    ((TaskCli.add_item now d []).2.map TaskCli.TaskRec.id = [1])
    ∧ (∀ t rest, tasks = t :: rest →
        (TaskCli.add_item now d tasks).2 = tasks
          ++ [ { id := TaskCli.maxIdAux t.id rest + 1, description := d, status := "todo",
                 createdAt := now, updatedAt := now } ])
    ∧ ((TaskCli.add_item now2 d2 (TaskCli.delete_item 1 (TaskCli.add_item now d []).2).2).2.map
        TaskCli.TaskRec.id = [1]) := by
  refine ⟨rfl, ?_, ?_⟩
  · intro t rest h
    subst h
    rfl
  · rfl

/-- Witness for C1's amended rule at a concrete input: adding to a store
holding the single task with id 5 appends a task with id 6. -/
theorem C1_amended_id_rule_witness :
    (TaskCli.add_item "t" "x" [⟨5, "a", "todo", "t0", "t0"⟩]).2
      = [⟨5, "a", "todo", "t0", "t0"⟩, ⟨6, "x", "todo", "t", "t"⟩] := by
  have h := (C1_amended_id_rule "t" "t" "x" "x"
    [⟨5, "a", "todo", "t0", "t0"⟩]).2.1 ⟨5, "a", "todo", "t0", "t0"⟩ [] rfl
  exact h.trans (by decide)

/-- Claim C2: for an event whose `type` is present but is none of the
seven supported event types, `handle_output` returns exactly
`"Unhandled event type: <type>"` with the type substituted verbatim.
The embedding is a total function, so no input event record can make it
raise. -/
theorem C2_unhandled_event_type (e : GhActivity.EventRecord) (t : String)
    (htype : e.type = some t) (hn : t ∉ GhActivity.supportedEventTypes) :
    GhActivity.handle_output e = "Unhandled event type: " ++ t := by
  simp only [GhActivity.supportedEventTypes, List.mem_cons, List.not_mem_nil, or_false,
    not_or] at hn
  obtain ⟨h1, h2, h3, h4, h5, h6, h7⟩ := hn
  simp [GhActivity.handle_output, htype, h1, h2, h3, h4, h5, h6, h7]

/-- Witness for C2: the unknown type `FooEvent` formats to the exact
string from the spec. -/
theorem C2_unhandled_event_type_witness :
    GhActivity.handle_output
      ⟨some "FooEvent", none, ⟨none, none, none, none, ⟨none, none, []⟩, none, ⟨none, ⟨none⟩⟩⟩, ⟨none⟩⟩
      = "Unhandled event type: FooEvent" := by
  have h := C2_unhandled_event_type
    ⟨some "FooEvent", none, ⟨none, none, none, none, ⟨none, none, []⟩, none, ⟨none, ⟨none⟩⟩⟩, ⟨none⟩⟩
    "FooEvent" rfl (by decide)
  exact h.trans (by decide)

/-- Claim C3 (code bug): on a 401 the fetcher retries with a token, but
the authenticated retry runs inside the `except HTTPError` handler and
`_retry_request_with_token` catches only `HTTPError`, so a `URLError`
(or a `JSONDecodeError`) raised by the retry escapes `fetch_activity`
uncaught — `main` has no handler, so the process crashes.  On 404 the
result is `None` with no retry, as claimed. -/
theorem C3_retry_exception_escapes :
    GhActivity.fetch_activity (.httpError 401) (some "tok") .urlError = .error .urlErr
    ∧ GhActivity.fetch_activity (.httpError 403) (some "tok") .jsonError = .error .jsonErr
    ∧ GhActivity.fetch_activity (.httpError 404) (some "tok") .urlError = .ok none := by
  exact ⟨rfl, rfl, rfl⟩

/-- Claim C7: `mark_status` and `update_item` on an id that no task
carries return `False` and leave the list unchanged — nothing is added,
removed or modified and no `updatedAt` stamp is written. -/
theorem C7_mark_update_not_found (now : String) (id : Int) (status desc : String)
    (tasks : List TaskCli.TaskRec) (h : ∀ t ∈ tasks, t.id ≠ id) :
    TaskCli.mark_status now id status tasks = (false, tasks)
    ∧ TaskCli.update_item now id desc tasks = (false, tasks) := by
  induction tasks with
  | nil => exact ⟨rfl, rfl⟩
  | cons t rest ih =>
    have ht : t.id ≠ id := h t (List.mem_cons_self t rest)
    have hrest : ∀ u ∈ rest, u.id ≠ id := fun u hu => h u (List.mem_cons_of_mem t hu)
    obtain ⟨h1, h2⟩ := ih hrest
    constructor
    · simp [TaskCli.mark_status, ht, h1]
    · simp [TaskCli.update_item, ht, h2]

/-- Witness for C7: `mark_status(999, "done")` and `update` on a store
holding only id 1 return not-found with the store untouched. -/
theorem C7_mark_update_not_found_witness :
    TaskCli.mark_status "t" 999 "done" [⟨1, "x", "todo", "t0", "t0"⟩]
      = (false, [⟨1, "x", "todo", "t0", "t0"⟩])
    ∧ TaskCli.update_item "t" 999 "y" [⟨1, "x", "todo", "t0", "t0"⟩]
      = (false, [⟨1, "x", "todo", "t0", "t0"⟩]) :=
  C7_mark_update_not_found "t" 999 "done" "y" [⟨1, "x", "todo", "t0", "t0"⟩] (by decide)

/-- Injectivity: `taskToJson` is injective: equal serialized objects come from equal
task records, so JSON-level equality is field-for-field equality. -/
theorem taskToJson_injective : Function.Injective TaskCli.taskToJson := by
  intro a b h
  cases a
  cases b
  simp only [TaskCli.taskToJson, JVal.jobj.injEq, List.cons.injEq, Prod.mk.injEq,
    JVal.jnum.injEq, JVal.jstr.injEq, and_true, true_and] at h
  obtain ⟨h1, h2, h3, h4, h5⟩ := h
  simp_all

/-- Claim C8: serializing a task sequence to the task file and reading it
back yields the same JSON sequence, and equal serializations force equal
task sequences, so the round trip is field-for-field identity. -/
theorem C8_roundtrip (tasks : List TaskCli.TaskRec) :
    (TaskCli.read_tasks_from_json (TaskCli.write_tasks_to_json (TaskCli.tasksToJson tasks))).1
      = TaskCli.tasksToJson tasks
    ∧ (∀ tasks2, TaskCli.tasksToJson tasks = TaskCli.tasksToJson tasks2 → tasks = tasks2) := by
  constructor
  · rfl
  · intro tasks2 h
    simp only [TaskCli.tasksToJson, JVal.jarr.injEq] at h
    exact List.map_injective_iff.2 taskToJson_injective h

/-- Witness for C8 at a concrete store. -/
theorem C8_roundtrip_witness :
    (TaskCli.read_tasks_from_json (TaskCli.write_tasks_to_json
        (TaskCli.tasksToJson [⟨1, "x", "todo", "t", "t"⟩]))).1
      = TaskCli.tasksToJson [⟨1, "x", "todo", "t", "t"⟩]
    ∧ ([⟨1, "x", "todo", "t", "t"⟩] : List TaskCli.TaskRec) = [⟨1, "x", "todo", "t", "t"⟩] :=
  ⟨(C8_roundtrip [⟨1, "x", "todo", "t", "t"⟩]).1,
   (C8_roundtrip [⟨1, "x", "todo", "t", "t"⟩]).2 [⟨1, "x", "todo", "t", "t"⟩] rfl⟩

/-- Claim C9: the formatter never mutates the event record.  In the
state-passing form of `handle_output` every dispatch branch hands back
the record it received (no handler in the source assigns to any field),
and the returned string agrees with the pure formatter. -/
theorem C9_formatter_no_mutation (e : GhActivity.EventRecord) :
    (GhActivity.handle_outputSt e).2 = e
    ∧ (GhActivity.handle_outputSt e).1 = GhActivity.handle_output e := by
  cases h : e.type with
  | none => simp [GhActivity.handle_outputSt, GhActivity.handle_output, h]
  | some t =>
    simp only [GhActivity.handle_outputSt, GhActivity.handle_output, h]
    constructor
    · repeat' split
      all_goals rfl
    · repeat' split
      all_goals rfl

/-- Claim C4: with a well-typed envelope whose timestamp string parses,
the usability check returns the cached events verbatim exactly when the
age `now - timestamp` is at most `ttl`, and `none` when the age exceeds
`ttl`; a malformed (unreadable) cache file, a non-sequence `events`
field, and an unparsable timestamp each give `none` without raising. -/
theorem C4_cache_gate (parse : String → Option Int) (now : Int)
    (fields : List (String × JVal)) (s : String) (t n : Int) (evs : List JVal)
    (hs : s ≠ "")
    (hts : jLookup fields "timestamp" = some (.jstr s))
    (hp : parse (pyReplace s "Z" "+00:00") = some t)
    (httl : jLookup fields "ttl" = some (.jnum n))
    (hev : jLookup fields "events" = some (.jarr evs)) :
    (now - t ≤ n →
      GhActivity.check_cache_usability parse now (.content (.jobj fields)) = .ok (some evs))
    ∧ (now - t > n →
      GhActivity.check_cache_usability parse now (.content (.jobj fields)) = .ok none)
    ∧ GhActivity.check_cache_usability parse now .unreadable = .ok none
    ∧ (∀ fields2 v2, jLookup fields2 "events" = some v2 → (∀ l, v2 ≠ .jarr l) →
        GhActivity.check_cache_usability parse now (.content (.jobj fields2)) = .ok none)
    ∧ (∀ fields3 s3, jLookup fields3 "timestamp" = some (.jstr s3) →
        parse (pyReplace s3 "Z" "+00:00") = none →
        GhActivity.check_cache_usability parse now (.content (.jobj fields3)) = .ok none) := by
  refine ⟨?_, ?_, rfl, ?_, ?_⟩
  · intro hfresh
    simp only [GhActivity.check_cache_usability, hts, httl, hev, Option.getD,
      GhActivity.is_cache_expired, hp, pyTruthy]
    have hb : (s != "") = true := by simpa using hs
    have hnb : decide (now - t > n) = false := by simp; omega
    simp [hb, hnb]
  · intro hstale
    simp only [GhActivity.check_cache_usability, hts, httl, hev, Option.getD,
      GhActivity.is_cache_expired, hp, pyTruthy]
    have hb : (s != "") = true := by simpa using hs
    have hyb : decide (now - t > n) = true := by simpa using hstale
    simp [hb, hyb]
  · intro fields2 v2 hev2 hnl
    simp only [GhActivity.check_cache_usability, hev2, Option.getD]
  · intro fields3 s3 hts3 hp3
    simp only [GhActivity.check_cache_usability, hts3, Option.getD,
      GhActivity.is_cache_expired, hp3, pyTruthy]
    rcases hevv : jLookup fields3 "events" with _ | v3
    · simp [hevv, Option.getD]
    · rcases v3 with _ | b | m | s4 | l | fs <;> simp [hevv, Option.getD]

/-- Witness for C4: an envelope stamped `now` (here both parse to 100)
with `ttl = 900` is usable and yields the cached events verbatim. -/
theorem C4_cache_gate_witness :
    GhActivity.check_cache_usability (fun s => if s = "TS" then some 100 else none) 100
      (.content (.jobj [ ("timestamp", .jstr "TS"), ("ttl", .jnum 900),
        ("events", .jarr [ .jstr "e1" ]) ]))
      = .ok (some [ .jstr "e1" ]) := by
  have h := C4_cache_gate (fun s => if s = "TS" then some 100 else none) 100
    [ ("timestamp", .jstr "TS"), ("ttl", .jnum 900), ("events", .jarr [ .jstr "e1" ]) ]
    "TS" 100 900 [ .jstr "e1" ] (by decide) rfl rfl rfl rfl
  exact h.1 (by decide)

/-- Claim C6, counterexample: `str.replace` removes every occurrence of
the substring, not just a leading prefix.  For a PushEvent whose ref is
`refs/heads/refs/heads/main` (the full ref of a branch literally named
`refs/heads/main`), prefix-stripping would print the branch as
`refs/heads/main`, but the code prints `main`. -/
theorem C6_counterexample :
    GhActivity.handle_output
      ⟨some "PushEvent", some "r",
       ⟨some "refs/heads/refs/heads/main", none, none, none, ⟨none, none, []⟩, none, ⟨none, ⟨none⟩⟩⟩,
       ⟨none⟩⟩
      = "Pushed commit(s) to branch 'main' of 'r'"
    ∧ GhActivity.handle_output
      ⟨some "PushEvent", some "r",
       ⟨some "refs/heads/refs/heads/main", none, none, none, ⟨none, none, []⟩, none, ⟨none, ⟨none⟩⟩⟩,
       ⟨none⟩⟩
      ≠ "Pushed commit(s) to branch 'refs/heads/main' of 'r'" := by
  constructor
  · decide
  · decide

/-- Claim C6 (amended): for a PushEvent, when `payload.ref` starts with
`refs/heads/` (resp. `refs/tags/`) the formatter removes every occurrence
of that substring from the ref (Python `str.replace`, which equals
prefix-stripping whenever the substring occurs only as the leading
prefix) and prints the branch (resp. tag) template; a ref matching
neither prefix is printed raw; a missing `ref` resolves to the
placeholder `unknown_ref` (which matches neither prefix, so it is
printed raw) and a missing `repo.name` to `unknown_repository`, in
every combination of present and absent fields. -/
theorem C6_push_format (e : GhActivity.EventRecord) (htype : e.type = some "PushEvent") :
    (∀ r rn, e.payload.ref = some r → e.repo_name = some rn →
      ((pyStartsWith r "refs/heads/" = true →
        GhActivity.handle_output e
          = "Pushed commit(s) to branch '" ++ pyReplace r "refs/heads/" "" ++ "' of '" ++ rn ++ "'")
       ∧ (pyStartsWith r "refs/heads/" = false → pyStartsWith r "refs/tags/" = true →
        GhActivity.handle_output e
          = "Pushed commit(s) to tag '" ++ pyReplace r "refs/tags/" "" ++ "' of '" ++ rn ++ "'")
       ∧ (pyStartsWith r "refs/heads/" = false → pyStartsWith r "refs/tags/" = false →
        GhActivity.handle_output e
          = "Pushed commit(s) to '" ++ r ++ "' of '" ++ rn ++ "'")))
    ∧ (∀ r, e.payload.ref = some r → e.repo_name = none →
      ((pyStartsWith r "refs/heads/" = true →
        GhActivity.handle_output e
          = "Pushed commit(s) to branch '" ++ pyReplace r "refs/heads/" ""
            ++ "' of 'unknown_repository'")
       ∧ (pyStartsWith r "refs/heads/" = false → pyStartsWith r "refs/tags/" = true →
        GhActivity.handle_output e
          = "Pushed commit(s) to tag '" ++ pyReplace r "refs/tags/" ""
            ++ "' of 'unknown_repository'")
       ∧ (pyStartsWith r "refs/heads/" = false → pyStartsWith r "refs/tags/" = false →
        GhActivity.handle_output e
          = "Pushed commit(s) to '" ++ r ++ "' of 'unknown_repository'")))
    ∧ (∀ rn, e.payload.ref = none → e.repo_name = some rn →
      GhActivity.handle_output e
        = "Pushed commit(s) to 'unknown_ref' of '" ++ rn ++ "'")
    ∧ (e.payload.ref = none → e.repo_name = none →
      GhActivity.handle_output e
        = "Pushed commit(s) to 'unknown_ref' of 'unknown_repository'") := by
  have hout : GhActivity.handle_output e = GhActivity.handle_push_event e := by
    simp [GhActivity.handle_output, htype]
  refine ⟨?_, ?_, ?_, ?_⟩
  · intro r rn hr hrn
    refine ⟨?_, ?_, ?_⟩
    · intro h1
      simp [hout, GhActivity.handle_push_event, hr, hrn, h1]
    · intro h1 h2
      simp [hout, GhActivity.handle_push_event, hr, hrn, h1, h2]
    · intro h1 h2
      simp [hout, GhActivity.handle_push_event, hr, hrn, h1, h2]
  · intro r hr hrn
    refine ⟨?_, ?_, ?_⟩
    · intro h1
      simp [hout, GhActivity.handle_push_event, hr, hrn, h1, String.append_assoc]
    · intro h1 h2
      simp [hout, GhActivity.handle_push_event, hr, hrn, h1, h2, String.append_assoc]
    · intro h1 h2
      simp [hout, GhActivity.handle_push_event, hr, hrn, h1, h2, String.append_assoc]
  · intro rn hr hrn
    have h1 : pyStartsWith "unknown_ref" "refs/heads/" = false := by decide
    have h2 : pyStartsWith "unknown_ref" "refs/tags/" = false := by decide
    simp [hout, GhActivity.handle_push_event, hr, hrn, h1, h2, String.append_assoc]
  · intro hr hrn
    simp [hout, GhActivity.handle_push_event, hr, hrn]
    decide

/-- Witness for C6's amended rule: a ref with a single leading
`refs/heads/` prints the branch name with the prefix removed, and with
the repo name additionally missing the repository placeholder is used. -/
theorem C6_push_format_witness :
    GhActivity.handle_output
      ⟨some "PushEvent", some "owner/repo",
       ⟨some "refs/heads/main", none, none, none, ⟨none, none, []⟩, none, ⟨none, ⟨none⟩⟩⟩, ⟨none⟩⟩
      = "Pushed commit(s) to branch 'main' of 'owner/repo'"
    ∧ GhActivity.handle_output
      ⟨some "PushEvent", none,
       ⟨some "refs/heads/main", none, none, none, ⟨none, none, []⟩, none, ⟨none, ⟨none⟩⟩⟩, ⟨none⟩⟩
      = "Pushed commit(s) to branch 'main' of 'unknown_repository'" := by
  have h := ((C6_push_format
    ⟨some "PushEvent", some "owner/repo",
     ⟨some "refs/heads/main", none, none, none, ⟨none, none, []⟩, none, ⟨none, ⟨none⟩⟩⟩, ⟨none⟩⟩
    rfl).1 "refs/heads/main" "owner/repo" rfl rfl).1 (by decide)
  have h2 := ((C6_push_format
    ⟨some "PushEvent", none,
     ⟨some "refs/heads/main", none, none, none, ⟨none, none, []⟩, none, ⟨none, ⟨none⟩⟩⟩, ⟨none⟩⟩
    rfl).2.1 "refs/heads/main" rfl rfl).1 (by decide)
  exact ⟨h.trans (by decide), h2.trans (by decide)⟩

/-- Claim C10: for a cache file parsing to a JSON object, a missing `ttl`
behaves exactly like `ttl = 900` (`CACHE_TTL_SECONDS`), a missing
`events` behaves exactly like `events = []`, and a missing, `null` or
empty-string `timestamp` makes the cache absent regardless of the ttl. -/
theorem C10_cache_defaults (parse : String → Option Int) (now : Int)
    (fields : List (String × JVal)) :
    (jLookup fields "ttl" = none →
      GhActivity.check_cache_usability parse now (.content (.jobj fields))
        = GhActivity.check_cache_usability parse now (.content (.jobj (("ttl", .jnum 900) :: fields))))
    ∧ (jLookup fields "events" = none →
      GhActivity.check_cache_usability parse now (.content (.jobj fields))
        = GhActivity.check_cache_usability parse now (.content (.jobj (("events", .jarr []) :: fields))))
    ∧ ((jLookup fields "timestamp" = none ∨ jLookup fields "timestamp" = some .jnull
        ∨ jLookup fields "timestamp" = some (.jstr "")) →
      GhActivity.check_cache_usability parse now (.content (.jobj fields)) = .ok none) := by
  refine ⟨?_, ?_, ?_⟩
  · intro httl
    simp only [GhActivity.check_cache_usability,
      jLookup_cons_ne "ttl" "timestamp" (.jnum 900) fields (by decide),
      jLookup_cons_ne "ttl" "events" (.jnum 900) fields (by decide),
      jLookup_cons_self "ttl" (.jnum 900) fields httl, httl, Option.getD]
  · intro hev
    simp only [GhActivity.check_cache_usability,
      jLookup_cons_ne "events" "timestamp" (.jarr []) fields (by decide),
      jLookup_cons_ne "events" "ttl" (.jarr []) fields (by decide),
      jLookup_cons_self "events" (.jarr []) fields hev, hev, Option.getD]
  · intro hts
    rcases hts with hts | hts | hts <;>
      simp only [GhActivity.check_cache_usability, hts, Option.getD, pyTruthy] <;>
      rcases jLookup fields "events" with _ | v <;>
      first
        | rfl
        | (rcases v with _ | b | m | s4 | l | fs <;> rfl)

/-- Witness for C10: the empty JSON object has no `ttl`, no `events` and
no `timestamp`, so its cache is absent. -/
theorem C10_cache_defaults_witness :
    GhActivity.check_cache_usability (fun _ => some 0) 0 (.content (.jobj [])) = .ok none :=
  (C10_cache_defaults (fun _ => some 0) 0 []).2.2 (Or.inl rfl)

/-- Claim C5, counterexample: the file content `{}` parses as JSON, so
`read_tasks_from_json` hands the dict straight to `TaskManager`, and
`add_item` then raises `TypeError` from its `isinstance` guard; no
caller catches `TypeError` (`handle_add_command` and `main` catch only
`IndexError`), so the process terminates with an unhandled fault. -/
theorem C5_counterexample :
    (TaskCli.read_tasks_from_json (.content (.jobj []))).1 = .jobj []
    ∧ TaskCli.jAdd_item "t" "x" (.jobj []) = .error .typeErr
    ∧ TaskCli.jMark_status "t" 1 "done" (.jobj [ ("a", .jnull) ]) = .error .typeErr
    ∧ TaskCli.jDelete_item 1 (.jarr [ .jobj [ ("description", .jstr "x") ] ]) = .error .keyErr := by
  exact ⟨rfl, rfl, rfl, rfl⟩

/-- Unpack `isWellFormedTask`: the value is an object carrying a numeric
`id` and the four string fields. -/
theorem wf_task_fields (v : JVal) (h : TaskCli.isWellFormedTask v = true) :
    ∃ fields, v = .jobj fields
      ∧ (∃ n : Int, jLookup fields "id" = some (.jnum n))
      ∧ (∃ s, jLookup fields "description" = some (.jstr s))
      ∧ (∃ s, jLookup fields "status" = some (.jstr s))
      ∧ (∃ s, jLookup fields "createdAt" = some (.jstr s))
      ∧ (∃ s, jLookup fields "updatedAt" = some (.jstr s)) := by
  match v, h with
  | .jobj fields, h =>
    refine ⟨fields, rfl, ?_⟩
    simp only [TaskCli.isWellFormedTask, Bool.and_eq_true] at h
    obtain ⟨⟨⟨⟨h1, h2⟩, h3⟩, h4⟩, h5⟩ := h
    exact ⟨isNumVal_spec _ h1, isStrVal_spec _ h2, isStrVal_spec _ h3,
      isStrVal_spec _ h4, isStrVal_spec _ h5⟩

/-- On well-formed tasks the running maximum of the ids stays a number
and `max` never raises. -/
theorem jMaxIdsGo_wf (items : List JVal) :
    ∀ a : Int, (∀ v ∈ items, TaskCli.isWellFormedTask v = true) →
      ∃ m : Int, TaskCli.jMaxIdsGo (.jnum a) items = .ok (.jnum m) := by
  induction items with
  | nil => exact fun a _ => ⟨a, rfl⟩
  | cons item rest ih =>
    intro a hwf
    obtain ⟨fields, hf, ⟨n, hn⟩, -⟩ :=
      wf_task_fields item (hwf item (List.mem_cons_self item rest))
    obtain ⟨m, hm⟩ := ih (if decide (a < n) = true then n else a)
      (fun v hv => hwf v (List.mem_cons_of_mem item hv))
    refine ⟨m, ?_⟩
    subst hf
    simp only [TaskCli.jMaxIdsGo, TaskCli.jItemId, hn, pyGtJ]
    rw [← apply_ite JVal.jnum]
    exact hm

/-- Safety: `add_item` completes on a list of well-formed tasks. -/
theorem jAdd_item_wf (now desc : String) (items : List JVal)
    (hwf : ∀ v ∈ items, TaskCli.isWellFormedTask v = true) :
    ∃ r, TaskCli.jAdd_item now desc (.jarr items) = .ok r := by
  match items, hwf with
  | [], _ => exact ⟨_, rfl⟩
  | first :: rest, hwf =>
    obtain ⟨fields, hf, ⟨n, hn⟩, -⟩ :=
      wf_task_fields first (hwf first (List.mem_cons_self first rest))
    obtain ⟨m, hm⟩ := jMaxIdsGo_wf rest n (fun v hv => hwf v (List.mem_cons_of_mem first hv))
    subst hf
    refine ⟨.jarr ((.jobj fields :: rest) ++ [TaskCli.jNewTask now desc (.jnum (m + 1))]), ?_⟩
    simp [TaskCli.jAdd_item, TaskCli.jItemId, hn, hm, TaskCli.pyPlusOne]

/-- Safety: `mark_status` completes on a list of well-formed tasks. -/
theorem jMarkGo_wf (now : String) (id : Int) (status : String) (items : List JVal)
    (hwf : ∀ v ∈ items, TaskCli.isWellFormedTask v = true) :
    ∃ r, TaskCli.jMarkGo now id status items = .ok r := by
  induction items with
  | nil => exact ⟨(false, []), rfl⟩
  | cons item rest ih =>
    obtain ⟨fields, hf, ⟨n, hn⟩, -⟩ :=
      wf_task_fields item (hwf item (List.mem_cons_self item rest))
    obtain ⟨r, hr⟩ := ih (fun v hv => hwf v (List.mem_cons_of_mem item hv))
    subst hf
    by_cases hmatch : TaskCli.pyIdMatches (.jnum n) id = true
    · refine ⟨(true, .jobj (jSetFields (jSetFields fields "status" (.jstr status))
        "updatedAt" (.jstr now)) :: rest), ?_⟩
      simp [TaskCli.jMarkGo, hn, hmatch]
    · refine ⟨(r.1, .jobj fields :: r.2), ?_⟩
      simp [TaskCli.jMarkGo, hn, hmatch, hr]

/-- Safety: `update_item` completes on a list of well-formed tasks. -/
theorem jUpdateGo_wf (now : String) (id : Int) (desc : String) (items : List JVal)
    (hwf : ∀ v ∈ items, TaskCli.isWellFormedTask v = true) :
    ∃ r, TaskCli.jUpdateGo now id desc items = .ok r := by
  induction items with
  | nil => exact ⟨(false, []), rfl⟩
  | cons item rest ih =>
    obtain ⟨fields, hf, ⟨n, hn⟩, -⟩ :=
      wf_task_fields item (hwf item (List.mem_cons_self item rest))
    obtain ⟨r, hr⟩ := ih (fun v hv => hwf v (List.mem_cons_of_mem item hv))
    subst hf
    by_cases hmatch : TaskCli.pyIdMatches (.jnum n) id = true
    · refine ⟨(true, .jobj (jSetFields (jSetFields fields "description" (.jstr desc))
        "updatedAt" (.jstr now)) :: rest), ?_⟩
      simp [TaskCli.jUpdateGo, hn, hmatch]
    · refine ⟨(r.1, .jobj fields :: r.2), ?_⟩
      simp [TaskCli.jUpdateGo, hn, hmatch, hr]

/-- Safety: `delete_item` completes on a list of well-formed tasks. -/
theorem jDeleteGo_wf (id : Int) (items : List JVal)
    (hwf : ∀ v ∈ items, TaskCli.isWellFormedTask v = true) :
    ∃ r, TaskCli.jDeleteGo id items = .ok r := by
  induction items with
  | nil => exact ⟨(false, []), rfl⟩
  | cons item rest ih =>
    obtain ⟨fields, hf, ⟨n, hn⟩, -⟩ :=
      wf_task_fields item (hwf item (List.mem_cons_self item rest))
    obtain ⟨r, hr⟩ := ih (fun v hv => hwf v (List.mem_cons_of_mem item hv))
    subst hf
    by_cases hmatch : TaskCli.pyIdMatches (.jnum n) id = true
    · exact ⟨(true, rest), by simp [TaskCli.jDeleteGo, hn, hmatch]⟩
    · exact ⟨(r.1, .jobj fields :: r.2), by simp [TaskCli.jDeleteGo, hn, hmatch, hr]⟩

/-- Safety: `print_item` completes on a well-formed task. -/
theorem jPrintItem_wf (v : JVal) (h : TaskCli.isWellFormedTask v = true) :
    TaskCli.jPrintItem v = .ok () := by
  obtain ⟨fields, hf, ⟨n, h1⟩, ⟨s2, h2⟩, ⟨s3, h3⟩, ⟨s4, h4⟩, ⟨s5, h5⟩⟩ := wf_task_fields v h
  subst hf
  simp [TaskCli.jPrintItem, h1, h2, h3, h4, h5]

/-- The unfiltered `list` command completes on well-formed tasks. -/
theorem jListAllGo_wf (items : List JVal)
    (hwf : ∀ v ∈ items, TaskCli.isWellFormedTask v = true) :
    ∃ b, TaskCli.jListAllGo items = .ok b := by
  induction items with
  | nil => exact ⟨false, rfl⟩
  | cons item rest ih =>
    obtain ⟨b, hb⟩ := ih (fun v hv => hwf v (List.mem_cons_of_mem item hv))
    refine ⟨true, ?_⟩
    simp [TaskCli.jListAllGo, jPrintItem_wf item (hwf item (List.mem_cons_self item rest)), hb]

/-- The filtered `list` command completes on well-formed tasks. -/
theorem jListFilterGo_wf (status : String) (items : List JVal)
    (hwf : ∀ v ∈ items, TaskCli.isWellFormedTask v = true) :
    ∃ b, TaskCli.jListFilterGo status items = .ok b := by
  induction items with
  | nil => exact ⟨false, rfl⟩
  | cons item rest ih =>
    have hwfi := hwf item (List.mem_cons_self item rest)
    obtain ⟨fields, hf, -, -, ⟨s3, h3⟩, -, -⟩ := wf_task_fields item hwfi
    obtain ⟨b, hb⟩ := ih (fun v hv => hwf v (List.mem_cons_of_mem item hv))
    subst hf
    by_cases hmatch : TaskCli.pyStatusMatches (.jstr s3) status = true
    · exact ⟨true, by simp [TaskCli.jListFilterGo, h3, hmatch, hb,
        jPrintItem_wf _ hwfi]⟩
    · exact ⟨b, by simp [TaskCli.jListFilterGo, h3, hmatch, hb]⟩

/-- Claim C5 (amended): task-file content that fails to parse as JSON is
converted to an empty list with a warning (a missing file is initialized
to `[]` and a parsed `null` is replaced by `[]`), and on a task list of
well-formed task objects every task operation — add, mark, update,
delete, and both forms of list — completes without raising; a malformed
cache file never makes the usability check raise.  (JSON task-file
content of any other shape is unguarded and can raise `TypeError` or
`KeyError`, per the counterexample.) -/
theorem C5_amended_safety (now desc status : String) (id : Int) (items : List JVal)
    (hwf : ∀ v ∈ items, TaskCli.isWellFormedTask v = true) :
    (∃ r, TaskCli.jAdd_item now desc (.jarr items) = .ok r)
    ∧ (∃ r, TaskCli.jMark_status now id status (.jarr items) = .ok r)
    ∧ (∃ r, TaskCli.jUpdate_item now id desc (.jarr items) = .ok r)
    ∧ (∃ r, TaskCli.jDelete_item id (.jarr items) = .ok r)
    ∧ (∃ b, TaskCli.jList_command none (.jarr items) = .ok b)
    ∧ (∃ b, TaskCli.jList_command (some status) (.jarr items) = .ok b)
    ∧ TaskCli.read_tasks_from_json .malformed = (.jarr [], .malformed)
    ∧ TaskCli.read_tasks_from_json .missingFile = (.jarr [], .content (.jarr []))
    ∧ TaskCli.read_tasks_from_json (.content .jnull) = (.jarr [], .content .jnull)
    ∧ (∀ parse pnow, GhActivity.check_cache_usability parse pnow .unreadable = .ok none) := by
  obtain ⟨ra, hra⟩ := jAdd_item_wf now desc items hwf
  obtain ⟨rm, hrm⟩ := jMarkGo_wf now id status items hwf
  obtain ⟨ru, hru⟩ := jUpdateGo_wf now id desc items hwf
  obtain ⟨rd, hrd⟩ := jDeleteGo_wf id items hwf
  obtain ⟨bl, hbl⟩ := jListAllGo_wf items hwf
  obtain ⟨bf, hbf⟩ := jListFilterGo_wf status items hwf
  refine ⟨⟨ra, hra⟩, ⟨(rm.1, .jarr rm.2), ?_⟩, ⟨(ru.1, .jarr ru.2), ?_⟩,
    ⟨(rd.1, .jarr rd.2), ?_⟩, ⟨bl, ?_⟩, ⟨bf, ?_⟩, rfl, rfl, rfl, fun _ _ => rfl⟩
  · simp [TaskCli.jMark_status, hrm]
  · simp [TaskCli.jUpdate_item, hru]
  · simp [TaskCli.jDelete_item, hrd]
  · simp [TaskCli.jList_command, hbl]
  · simp [TaskCli.jList_command, hbf]

/-- Witness for C5's amended safety at a one-task store shaped exactly as
`add_item` writes it. -/
theorem C5_amended_safety_witness :
    (∃ r, TaskCli.jAdd_item "t" "y" (.jarr [ .jobj [ ("id", .jnum 1),
        ("description", .jstr "x"), ("status", .jstr "todo"),
        ("createdAt", .jstr "t0"), ("updatedAt", .jstr "t0") ] ]) = .ok r)
    ∧ (∃ r, TaskCli.jMark_status "t" 1 "done" (.jarr [ .jobj [ ("id", .jnum 1),
        ("description", .jstr "x"), ("status", .jstr "todo"),
        ("createdAt", .jstr "t0"), ("updatedAt", .jstr "t0") ] ]) = .ok r) := by
  have h := C5_amended_safety "t" "y" "done" 1
    [ .jobj [ ("id", .jnum 1), ("description", .jstr "x"), ("status", .jstr "todo"),
      ("createdAt", .jstr "t0"), ("updatedAt", .jstr "t0") ] ]
    (by intro v hv; rw [List.mem_singleton] at hv; subst hv; rfl)
  exact ⟨h.1, h.2.1⟩
